import Mathlib

/-!
Verification of the `gostream-official/albums` service against its
specification.  The Go sources are shallowly embedded: pure request-handling
logic becomes Lean functions, machine integers become `Nat`/`Int` with
explicit `% 2^32` where Go's `uint32` conversion truncates, and fallible
operations return `Except`/`Option`.  The generic store/query layer
(`pkg/store`, `pkg/store/query`) is not part of the reviewed sources, so its
semantics are modelled from the specification where a claim depends on them;
each such definition is marked `Modelled from the spec:`.
-/

namespace Albums

/-! ## Data model (impl/models) -/

/-- Some album statistics (`models.AlbumStats`).  The Go field `Popularity`
is a `float32`; the reviewed code only ever assigns it and compares it with
`0`, so it is embedded as a rational number. -/
structure AlbumStats where
  popularity : ℚ
deriving DecidableEq, Repr

/-- The data model definition for an album (`models.AlbumInfo`),
a direct reference to the database data model.  The bson field mapping is
`_id`, `title`, `trackIds`, `stats.popularity`. -/
structure AlbumInfo where
  id : String
  title : String
  trackIDs : List String
  stats : AlbumStats
deriving DecidableEq, Repr

/-- Modelled from the spec: the track document shape referenced by the
handlers as `models.TrackInfo`.  Its definition is not among the reviewed
sources; the spec only requires every document shape to carry a stable
string identifier field serialized as the primary key (§6), so the shape is
embedded with exactly that field. -/
structure TrackInfo where
  id : String
deriving DecidableEq, Repr

/-- The document shape a typed store is parameterized by: either
`models.AlbumInfo` or `models.TrackInfo`. -/
inductive DocShape where
  | albumInfo
  | trackInfo
deriving DecidableEq, Repr

/-! ## Query layer (pkg/store/query)

The filter and update expression trees.  Their Go definitions are not under
the reviewed sources; the shapes below follow the constructors the handlers
use (`query.Filter`, `query.FilterOperatorEq`, `query.FilterOperatorAnd`,
`query.FilterOperatorOr`, `query.Update`, `query.UpdateOperatorSet`) and the
data model of spec §3. -/

/-- A document field value.  The handlers only ever place strings, string
lists and the popularity number into filters and updates. -/
inductive DocValue where
  | str (s : String)
  | strList (l : List String)
  | num (q : ℚ)
deriving DecidableEq, Repr

/-- A predicate node (`query.IQuery`): equality, conjunction, disjunction. -/
inductive IQuery where
  | eq (key : String) (value : DocValue)
  | and (clauses : List IQuery)
  | or (clauses : List IQuery)

/-- A filter (`query.Filter`): an optional root predicate (Go's nil
interface field becomes `none`) and a `uint32` limit, embedded as a `Nat`
that is always the Go value, i.e. reduced modulo `2^32`. -/
structure Filter where
  root : Option IQuery := none
  limit : Nat := 0

/-- The sole update-operation node (`query.UpdateOperatorSet`): a mapping
from field path to value.  The handler builds it from a Go map literal with
three distinct keys; it is embedded as the corresponding association list. -/
structure UpdateOperatorSet where
  set : List (String × DocValue)
deriving DecidableEq, Repr

/-- An update (`query.Update`): a required root update-operation node. -/
structure Update where
  root : UpdateOperatorSet
deriving DecidableEq, Repr

/-! ## Matching semantics of filters

Modelled from the spec (§3, §4.1, §4.3): documents are field-path to value
mappings, `Eq` uses native structural equality, `And` is conjunction over
its clauses (empty behaves as match-all), `Or` is disjunction (empty behaves
as match-none), and a missing filter root compiles to match-all. -/

/-- A document as the store matches it: an association list from field path
to value. -/
def Document : Type := List (String × DocValue)

/-- Modelled from the spec: field lookup inside a document; an unknown field
yields `none`, so an `Eq` predicate on it never matches (§4.1). -/
def docLookup (doc : Document) (key : String) : Option DocValue :=
  match doc with
  | [] => none
  | (k, v) :: rest => if k = key then some v else docLookup rest key

mutual

/-- Modelled from the spec: whether a predicate node matches a document.
`Eq` compares with structural value equality, `And` requires every clause to
match (an empty clause list matches every document), `Or` requires some
clause to match (an empty clause list matches no document). -/
def matchesQuery : IQuery → Document → Bool
  | .eq key value, doc => docLookup doc key = some value
  | .and clauses, doc => matchesAllQueries clauses doc
  | .or clauses, doc => matchesAnyQuery clauses doc

/-- Conjunction over a clause list: `true` on the empty list. -/
def matchesAllQueries : List IQuery → Document → Bool
  | [], _ => true
  | clause :: rest, doc => matchesQuery clause doc && matchesAllQueries rest doc

/-- Disjunction over a clause list: `false` on the empty list. -/
def matchesAnyQuery : List IQuery → Document → Bool
  | [], _ => false
  | clause :: rest, doc => matchesQuery clause doc || matchesAnyQuery rest doc

end

/-- Modelled from the spec: a missing filter root compiles to "match all
documents" (§4.3); a present root matches per `matchesQuery`. -/
def matchesRoot : Option IQuery → Document → Bool
  | none, _ => true
  | some query, doc => matchesQuery query doc

/-! ## strconv.Atoi

The `limit` query parameter is parsed with Go's `strconv.Atoi`: an optional
leading `+`/`-` sign followed by at least one ASCII digit, rejected on any
other character, the empty string, or overflow of the platform `int`
(64-bit here, matching the primary build targets).  The handler only uses
the parsed value when the returned error is nil, so the embedding returns
`Option Int`: `some` exactly on the error-free results. -/

/-- The numeric value of an ASCII digit, `none` for any other character. -/
def digitVal (c : Char) : Option Nat :=
  if '0' ≤ c ∧ c ≤ '9' then some (c.toNat - '0'.toNat) else none

/-- Accumulates a decimal number over a list of characters; fails on the
first non-digit. -/
def digitsToNatAux : List Char → Nat → Option Nat
  | [], acc => some acc
  | c :: cs, acc =>
    match digitVal c with
    | none => none
    | some d => digitsToNatAux cs (acc * 10 + d)

/-- Parses a non-empty all-digit character list as a decimal number. -/
def digitsToNat : List Char → Option Nat
  | [] => none
  | cs => digitsToNatAux cs 0

/-- Go's `strconv.Atoi` restricted to its error-free results: optional sign,
one or more ASCII digits, magnitude within the 64-bit `int` range. -/
def atoi (s : String) : Option Int :=
  match s.data with
  | [] => none
  | c :: rest =>
    let signed : Bool × List Char :=
      if c = '-' then (true, rest)
      else if c = '+' then (false, rest)
      else (false, c :: rest)
    match digitsToNat signed.2 with
    | none => none
    | some m =>
      let value : Int := if signed.1 then -(m : Int) else (m : Int)
      if -(2 ^ 63) ≤ value ∧ value < 2 ^ 63 then some value else none

/-! ## GET /albums (impl/funcs/getalbums) -/

/-- Creates a query filter from the incoming API request
(`getalbums.CreateFilterFromQueryParameters`).  The query parameters are the
request's string-to-string map.  The `And` clause list is created empty and
never appended to, the limit is `uint32(realLimit)` — the parsed integer
truncated modulo `2^32` — when the parameter is present and parses, and the
root is only assigned when the clause list is non-empty. -/
def CreateFilterFromQueryParameters (queryParameters : String → Option String) :
    Filter :=
  let andClauses : List IQuery := []
  let limitParam := queryParameters "limit"
  let resultFilter : Filter := {}
  let resultFilter :=
    match limitParam with
    | none => resultFilter
    | some limitString =>
      match atoi limitString with
      | none => resultFilter
      | some realLimit => { resultFilter with limit := (realLimit % 2 ^ 32).toNat }
  if andClauses.length > 0 then
    { resultFilter with root := some (.and andClauses) }
  else
    resultFilter

/-! ## API responses (pkg/api)

Each handler returns an `api.APIResponse` holding an HTTP status code and
an optional body.  The bodies the reviewed handlers produce are enumerated
as one sum type. -/

/-- The possible response bodies of the reviewed handlers. -/
inductive ResponseBody where
  | album (item : AlbumInfo)
  | trackItems (items : List TrackInfo)
  | errorMessage (message : String)
  | validationError (fieldRef : String) (errorMessage : String)
  | pathValidationError (pathRef : String) (errorMessage : String)
deriving DecidableEq, Repr

/-- An `api.APIResponse`: status code and optional body. -/
structure APIResponse where
  statusCode : Nat
  body : Option ResponseBody := none
deriving DecidableEq, Repr

/-- A typed store's identity as the handlers construct it with
`store.NewMongoStore[T](instance, database, collection)`: the document
shape `T` and the (database, collection) pair. -/
structure MongoStoreSpec where
  shape : DocShape
  database : String
  collection : String
deriving DecidableEq, Repr

/-! ## GET /albums/:id (impl/funcs/getalbum) -/

/-- The store `getalbum.Handler` constructs:
`store.NewMongoStore[models.AlbumInfo](injector.MongoInstance, "gostream", "albums")`. -/
def getalbumStoreSpec : MongoStoreSpec :=
  { shape := .albumInfo, database := "gostream", collection := "albums" }

/-- The filter `getalbum.Handler` builds: `_id` equals the `id` path
parameter, limit 10. -/
def getalbumFilter (pathId : String) : Filter :=
  { root := some (.eq "_id" (.str pathId)), limit := 10 }

/-- `getalbum.Handler` after the injector cast succeeded: runs the find and
maps its result to a response.  `find` stands for
`store.FindItems` on the album store; the handler owns only the mapping. -/
def getalbumHandler (pathId : String)
    (find : Filter → Except Unit (List AlbumInfo)) : APIResponse :=
  match find (getalbumFilter pathId) with
  | .error _ => { statusCode := 500 }
  | .ok [] => { statusCode := 404 }
  | .ok (resultItem :: _) => { statusCode := 200, body := some (.album resultItem) }

/-! ## GET /albums (impl/funcs/getalbums), continued -/

/-- The store `getalbums.Handler` constructs:
`store.NewMongoStore[models.TrackInfo](injector.MongoInstance, "gostream", "albums")`
— note the document shape is `models.TrackInfo` although the collection is
`"albums"`. -/
def getalbumsStoreSpec : MongoStoreSpec :=
  { shape := .trackInfo, database := "gostream", collection := "albums" }

/-- `getalbums.Handler` after the injector cast succeeded: builds the filter
from the query parameters, runs the find on the `TrackInfo`-shaped store and
returns 200 with the items (or 500 on a store error). -/
def getalbumsHandler (queryParameters : String → Option String)
    (find : Filter → Except Unit (List TrackInfo)) : APIResponse :=
  match find (CreateFilterFromQueryParameters queryParameters) with
  | .error _ => { statusCode := 500 }
  | .ok items => { statusCode := 200, body := some (.trackItems items) }

/-! ## DELETE /albums/:id (impl/funcs/deletealbum) -/

/-- The store `deletealbum.Handler` constructs:
`store.NewMongoStore[models.TrackInfo](injector.MongoInstance, "gostream", "albums")`
— again shaped over `models.TrackInfo` for the `"albums"` collection. -/
def deletealbumStoreSpec : MongoStoreSpec :=
  { shape := .trackInfo, database := "gostream", collection := "albums" }

/-- `deletealbum.Handler` after the injector cast succeeded: deletes by the
`id` path parameter and maps the (count, error) result; a zero count yields
204 No Content, a positive count 202 Accepted. -/
def deletealbumHandler (pathId : String)
    (deleteItem : String → Except Unit Nat) : APIResponse :=
  match deleteItem pathId with
  | .error _ => { statusCode := 500 }
  | .ok 0 => { statusCode := 204 }
  | .ok (_ + 1) => { statusCode := 202 }

/-! ## GET /albums/:id/tracks (impl/funcs/getalbumtracks) -/

/-- `getalbumtracks.FindTracksForAlbum`: builds one `Eq` clause per track id
of the album, wraps them in an `Or` root (with limit left at 0) and runs the
find on the track store. -/
def FindTracksForAlbum (find : Filter → Except Unit (List TrackInfo))
    (album : AlbumInfo) : Except Unit (List TrackInfo) :=
  let filters := album.trackIDs.map (fun trackID => IQuery.eq "_id" (.str trackID))
  let filter : Filter := { root := some (.or filters) }
  find filter

/-- `getalbumtracks.Handler` after the injector cast succeeded: finds the
album by the `id` path parameter (limit 10), returns 404 when nothing
matched, 200 with an empty track list when the album has no track ids, and
otherwise the result of `FindTracksForAlbum` on the track store. -/
def getalbumtracksHandler (pathId : String)
    (albumFind : Filter → Except Unit (List AlbumInfo))
    (trackFind : Filter → Except Unit (List TrackInfo)) : APIResponse :=
  match albumFind { root := some (.eq "_id" (.str pathId)), limit := 10 } with
  | .error _ => { statusCode := 500 }
  | .ok [] => { statusCode := 404 }
  | .ok (resultItem :: _) =>
    if resultItem.trackIDs.length = 0 then
      { statusCode := 200, body := some (.trackItems []) }
    else
      match FindTracksForAlbum trackFind resultItem with
      | .error _ => { statusCode := 500 }
      | .ok tracks => { statusCode := 200, body := some (.trackItems tracks) }

/-! ## POST /albums (impl/funcs/createalbum) -/

/-- Go's `strings.TrimSpace` on the character set the service can see in
practice (ASCII whitespace): strips leading and trailing whitespace. -/
def isSpaceChar (c : Char) : Bool :=
  c = ' ' || c = '\t' || c = '\n' || c = '\r' || c = '\x0b' || c = '\x0c'

/-- Trims leading and trailing whitespace from a string
(`strings.TrimSpace`). -/
def trimSpace (s : String) : String :=
  ⟨((s.data.dropWhile isSpaceChar).reverse.dropWhile isSpaceChar).reverse⟩

/-- The request body for the create album endpoint
(`createalbum.CreateAlbumRequestBody` with its nested stats body).  The
body has no id field: a request cannot supply one. -/
structure CreateAlbumRequestBody where
  title : String
  trackIDs : List String
  popularity : ℚ
deriving DecidableEq, Repr

/-- A validation error (`CreateAlbumValidationError` /
`UpdateAlbumValidationError`): referenced field and message. -/
structure ValidationError where
  fieldRef : String
  errorMessage : String
deriving DecidableEq, Repr

/-- `createalbum.ValidateRequestBody`: the trimmed title must be non-empty
and every trimmed track id must parse as a UUID; `uuidValid` stands for
`uuid.Parse` succeeding (the UUID library is an external collaborator).
The stats body validation (`ValidateAlbumStatsRequestBody`) always passes. -/
def ValidateCreateAlbumRequestBody (uuidValid : String → Bool)
    (request : CreateAlbumRequestBody) : Option ValidationError :=
  let title := trimSpace request.title
  let trackIds := request.trackIDs.map trimSpace
  if title.length = 0 then
    some { fieldRef := "title", errorMessage := "value must not be empty" }
  else if trackIds.all uuidValid then
    none
  else
    some { fieldRef := "trackIds", errorMessage := "array value must be valid uuid" }

/-- The album document `createalbum.Handler` constructs before calling
`CreateItem`: the freshly generated UUID as id, and the request's title,
track ids and popularity. -/
def createAlbumDocument (generatedUUID : String)
    (requestBody : CreateAlbumRequestBody) : AlbumInfo :=
  { id := generatedUUID
    title := requestBody.title
    trackIDs := requestBody.trackIDs
    stats := { popularity := requestBody.popularity } }

/-- `createalbum.Handler` after the injector cast succeeded.
`bodyParse` stands for `json.Unmarshal` of the request body, `trackExists`
for `CheckIfTrackExists` succeeding on the track store, `generatedUUID` for
the value of `uuid.New().String()`, and `create` for
`albumStore.CreateItem`.  Any parse, validation or track-existence failure
returns 400; a create failure returns 500; success returns 200 with the
document that was passed to `CreateItem`. -/
def createalbumHandler (bodyParse : Except Unit CreateAlbumRequestBody)
    (uuidValid trackExists : String → Bool) (generatedUUID : String)
    (create : AlbumInfo → Except Unit Unit) : APIResponse :=
  match bodyParse with
  | .error _ => { statusCode := 400, body := some (.errorMessage "invalid request body") }
  | .ok requestBody =>
    match ValidateCreateAlbumRequestBody uuidValid requestBody with
    | some validationError =>
      { statusCode := 400
        body := some (.validationError validationError.fieldRef validationError.errorMessage) }
    | none =>
      if requestBody.trackIDs.all trackExists then
        let albumInfo := createAlbumDocument generatedUUID requestBody
        match create albumInfo with
        | .error _ => { statusCode := 500 }
        | .ok _ => { statusCode := 200, body := some (.album albumInfo) }
      else
        { statusCode := 400, body := some (.errorMessage "track does not exist") }

/-! ## PUT /albums/:id (impl/funcs/updatealbum) -/

/-- The request body for the update album endpoint
(`updatealbum.UpdateAlbumRequestBody` with its nested stats body).  All
fields carry `omitempty` JSON tags and decode to their zero value when
absent: empty title, empty track id list, zero popularity. -/
structure UpdateAlbumRequestBody where
  title : String := ""
  trackIDs : List String := []
  popularity : ℚ := 0
deriving DecidableEq, Repr

/-- `updatealbum.ValidateRequestBody`: a non-empty title must be non-empty
after trimming; a non-empty track id list must contain only valid UUIDs
after trimming each element; the stats validation always passes. -/
def ValidateUpdateAlbumRequestBody (uuidValid : String → Bool)
    (request : UpdateAlbumRequestBody) : Option ValidationError :=
  if request.title ≠ "" ∧ (trimSpace request.title).length = 0 then
    some { fieldRef := "title", errorMessage := "value is not a valid uuid" }
  else if request.trackIDs.length > 0 ∧
      ¬ (request.trackIDs.map trimSpace).all uuidValid then
    some { fieldRef := "trackIDs", errorMessage := "array contains invalid uuid" }
  else
    none

/-- The field-merging step of `updatealbum.Handler` (lines 358–368): each
request field is copied onto the fetched album only when it differs from
its zero value — non-empty title, non-empty track id list, non-zero
popularity. -/
def mergeAlbumForUpdate (albumInfo : AlbumInfo)
    (requestBody : UpdateAlbumRequestBody) : AlbumInfo :=
  let albumInfo :=
    if requestBody.title ≠ "" then { albumInfo with title := requestBody.title }
    else albumInfo
  let albumInfo :=
    if requestBody.trackIDs.length > 0 then { albumInfo with trackIDs := requestBody.trackIDs }
    else albumInfo
  if requestBody.popularity ≠ 0 then
    { albumInfo with stats := { popularity := requestBody.popularity } }
  else albumInfo

/-- The update filter `updatealbum.Handler` builds: `_id` equals the
validated path id, no limit. -/
def updateAlbumFilter (id : String) : Filter :=
  { root := some (.eq "_id" (.str id)) }

/-- The update operator `updatealbum.Handler` builds: a `Set` over the three
paths `title`, `trackIds` and `stats.popularity`, each carrying the merged
album's value.  The Go map literal has three distinct keys; it is embedded
in the order written in the source. -/
def updateAlbumOperator (albumInfo : AlbumInfo) : Update :=
  { root :=
    { set :=
      [ ("title", .str albumInfo.title)
      , ("trackIds", .strList albumInfo.trackIDs)
      , ("stats.popularity", .num albumInfo.stats.popularity) ] } }

/-- Modelled from the spec: the effect of one `Set` assignment on a stored
album document (§4.2: `Set` applies each assignment independently).  The
paths follow `AlbumInfo`'s bson mapping (`_id`, `title`, `trackIds`,
`stats.popularity`); an assignment outside that mapping, or with a value of
the wrong kind, is not representable in the typed shape and leaves the
document unchanged. -/
def applyAssignment (doc : AlbumInfo) (assignment : String × DocValue) : AlbumInfo :=
  match assignment with
  | ("_id", .str s) => { doc with id := s }
  | ("title", .str s) => { doc with title := s }
  | ("trackIds", .strList l) => { doc with trackIDs := l }
  | ("stats.popularity", .num q) => { doc with stats := { popularity := q } }
  | _ => doc

/-- Modelled from the spec: the effect of a `Set` update on a stored album
document — each assignment applied in order (assignments to distinct paths
commute, §4.2). -/
def applySet (assignments : List (String × DocValue)) (doc : AlbumInfo) : AlbumInfo :=
  assignments.foldl applyAssignment doc

/-- The stored album document after `updatealbum.Handler` runs its
`UpdateItem` against a stored document (the one `FindAlbumByID` fetched):
the handler's `Set` over the merged album applied to it. -/
def updateAlbumEffect (storedAlbum : AlbumInfo)
    (requestBody : UpdateAlbumRequestBody) : AlbumInfo :=
  applySet (updateAlbumOperator (mergeAlbumForUpdate storedAlbum requestBody)).root.set
    storedAlbum

/-! ## Process entry point (cmd/main.go) -/

/-- How a run of `main` up to the router launch can end.  `log.Fatalf`
terminates the process, so each fatal constructor marks an abort at its
program point; `serving` means the router engine was launched and ran
without error. -/
inductive MainOutcome where
  | fatalEnvUsername
  | fatalEnvPassword
  | fatalConnect
  | fatalRouter
  | serving
deriving DecidableEq, Repr

/-- The connection URI `main` assembles:
`fmt.Sprintf("mongodb://%s:%s@%s", username, password, host)`. -/
def connectionURI (username password host : String) : String :=
  "mongodb://" ++ username ++ ":" ++ password ++ "@" ++ host

/-- `main`: reads the mongo credentials from the environment (fatal when
either is missing), the host with fallback `127.0.0.1:27017`, establishes
the database connection via `store.NewMongoInstance` (fatal on error,
before any route is registered or the engine is launched), then registers
the five handlers and runs the router engine (fatal when `Run` returns an
error).  `connect` stands for `store.NewMongoInstance`, `runRouter` for
`engine.Run(9871)`. -/
def mainRun (mongoUsername mongoPassword mongoHost : Option String)
    (connect : String → Except Unit Unit)
    (runRouter : Except Unit Unit) : MainOutcome :=
  match mongoUsername with
  | none => .fatalEnvUsername
  | some username =>
    match mongoPassword with
    | none => .fatalEnvPassword
    | some password =>
      let host := mongoHost.getD "127.0.0.1:27017"
      match connect (connectionURI username password host) with
      | .error _ => .fatalConnect
      | .ok _ =>
        match runRouter with
        | .error _ => .fatalRouter
        | .ok _ => .serving

/-! ## Concrete sample inputs used by witnesses and counterexamples -/

/-- A query-parameter map holding only `limit` with the given value. -/
def limitParams (value : String) : String → Option String :=
  fun key => if key = "limit" then some value else none

/-- An empty query-parameter map. -/
def noQueryParams : String → Option String := fun _ => none

/-- A sample stored album with non-zero fields. -/
def albumSample : AlbumInfo :=
  { id := "a1", title := "X", trackIDs := ["t1", "t2"], stats := { popularity := 1 } }

/-- A sample update request body with every field at its zero value. -/
def updateBodyZero : UpdateAlbumRequestBody := {}

/-! ## Claims -/

/-- C3: for every GET /albums request, `CreateFilterFromQueryParameters`
sets the filter's Root only when the conjunction clause list is non-empty;
since the clause list is created empty and never appended to, the root is
always absent, and a filter with a missing root (equivalently, an empty
conjunction) matches all documents. -/
theorem c3_empty_and_root_absent_matches_all
    (queryParameters : String → Option String) (doc : Document) :
    (CreateFilterFromQueryParameters queryParameters).root = none ∧
    matchesRoot (CreateFilterFromQueryParameters queryParameters).root doc = true ∧
    matchesQuery (.and []) doc = true := by
  have hroot : (CreateFilterFromQueryParameters queryParameters).root = none := by
    unfold CreateFilterFromQueryParameters
    cases h : queryParameters "limit" with
    | none => simp
    | some s => cases ha : atoi s <;> simp [ha]
  refine ⟨hroot, ?_, ?_⟩
  · rw [hroot]; rfl
  · simp [matchesQuery, matchesAllQueries]

/-- C4 (counterexample): the claim that the constructed filter's Limit
equals the integer value of the `limit` query parameter whenever it parses
fails at `limit=-1`: the parameter parses to the integer −1 but the
constructed Limit is 4294967295, not −1. -/
theorem c4_counterexample :
    atoi "-1" = some (-1) ∧
    ¬ (((CreateFilterFromQueryParameters (limitParams "-1")).limit : Int) = -1) := by
  constructor
  · decide
  · decide

/-- C4 (amended): the constructed filter's Limit equals the integer value
of the `limit` query parameter reduced modulo 2^32 when the parameter is
present and parses as an integer (hence equals the value itself exactly
when that value lies in [0, 2^32)), and is 0 when the parameter is absent
or fails to parse. -/
theorem c4_limit_wiring (queryParameters : String → Option String) :
    (∀ s n, queryParameters "limit" = some s → atoi s = some n →
      (CreateFilterFromQueryParameters queryParameters).limit = (n % 2 ^ 32).toNat ∧
      (0 ≤ n → n < 2 ^ 32 →
        ((CreateFilterFromQueryParameters queryParameters).limit : Int) = n)) ∧
    (queryParameters "limit" = none →
      (CreateFilterFromQueryParameters queryParameters).limit = 0) ∧
    (∀ s, queryParameters "limit" = some s → atoi s = none →
      (CreateFilterFromQueryParameters queryParameters).limit = 0) := by
  refine ⟨?_, ?_, ?_⟩
  · intro s n hs hn
    have hlim : (CreateFilterFromQueryParameters queryParameters).limit =
        (n % 2 ^ 32).toNat := by
      unfold CreateFilterFromQueryParameters
      simp [hs, hn]
    refine ⟨hlim, ?_⟩
    intro hge hlt
    rw [hlim]
    have hmod : n % 2 ^ 32 = n := Int.emod_eq_of_lt hge hlt
    rw [hmod]
    exact Int.toNat_of_nonneg hge
  · intro hs
    unfold CreateFilterFromQueryParameters
    simp [hs]
  · intro s hs hn
    unfold CreateFilterFromQueryParameters
    simp [hs, hn]

/-- C4 (witness): at `limit=7` the Limit is 7; with no parameters it is 0. -/
theorem c4_limit_wiring_witness :
    (CreateFilterFromQueryParameters (limitParams "7")).limit = ((7 : Int) % 2 ^ 32).toNat ∧
    (CreateFilterFromQueryParameters noQueryParams).limit = 0 :=
  ⟨((c4_limit_wiring (limitParams "7")).1 "7" 7 rfl (by decide)).1,
   (c4_limit_wiring noQueryParams).2.1 rfl⟩

/-- C10 (counterexample): the claim that a negative parsed limit always
yields a non-zero Limit fails at `limit=-4294967296`: the parameter parses
as the negative integer −2^32, but its unsigned 32-bit conversion — and
hence the constructed Limit — is 0. -/
theorem c10_counterexample :
    atoi "-4294967296" = some (-4294967296) ∧
    (-4294967296 : Int) < 0 ∧
    (CreateFilterFromQueryParameters (limitParams "-4294967296")).limit = 0 := by
  refine ⟨by decide, by decide, ?_⟩
  decide

/-- C10 (amended): when the `limit` query parameter parses as a negative
integer n, the constructed filter's Limit is n modulo 2^32 (Go's
`uint32(n)` conversion, e.g. limit=-1 yields 4294967295) and no error is
signalled; the Limit is non-zero whenever n is not a multiple of 2^32. -/
theorem c10_negative_limit_wraps (queryParameters : String → Option String)
    (s : String) (n : Int)
    (hs : queryParameters "limit" = some s) (hn : atoi s = some n) (hneg : n < 0) :
    (CreateFilterFromQueryParameters queryParameters).limit = (n % 2 ^ 32).toNat ∧
    (n % 2 ^ 32 ≠ 0 → (CreateFilterFromQueryParameters queryParameters).limit ≠ 0) := by
  have hlim : (CreateFilterFromQueryParameters queryParameters).limit =
      (n % 2 ^ 32).toNat := by
    unfold CreateFilterFromQueryParameters
    simp [hs, hn]
  refine ⟨hlim, ?_⟩
  intro hne
  rw [hlim]
  have hnonneg : 0 ≤ n % 2 ^ 32 := Int.emod_nonneg n (by norm_num)
  omega

/-- C10 (witness): `limit=-1` yields Limit = 4294967295. -/
theorem c10_negative_limit_wraps_witness :
    (CreateFilterFromQueryParameters (limitParams "-1")).limit = 4294967295 := by
  have h := c10_negative_limit_wraps (limitParams "-1") "-1" (-1) rfl (by decide) (by decide)
  rw [h.1]
  decide

/-- C2: when the store operation succeeds with zero matching documents,
every handler returns a non-error signal: GET /albums/:id yields 404 Not
Found, GET /albums yields 200 with the empty item sequence, DELETE
/albums/:id yields 204 No Content on a zero deleted count — and none of
these statuses is a 5xx. -/
theorem c2_zero_match_is_not_an_error (pathId deleteId : String)
    (queryParameters : String → Option String)
    (albumFind : Filter → Except Unit (List AlbumInfo))
    (trackFind : Filter → Except Unit (List TrackInfo))
    (deleteItem : String → Except Unit Nat)
    (hAlbum : ∀ f, albumFind f = .ok [])
    (hTracks : ∀ f, trackFind f = .ok [])
    (hDelete : ∀ i, deleteItem i = .ok 0) :
    getalbumHandler pathId albumFind = { statusCode := 404 } ∧
    getalbumsHandler queryParameters trackFind =
      { statusCode := 200, body := some (.trackItems []) } ∧
    deletealbumHandler deleteId deleteItem = { statusCode := 204 } ∧
    (getalbumHandler pathId albumFind).statusCode < 500 ∧
    (getalbumsHandler queryParameters trackFind).statusCode < 500 ∧
    (deletealbumHandler deleteId deleteItem).statusCode < 500 := by
  have h1 : getalbumHandler pathId albumFind = { statusCode := 404 } := by
    unfold getalbumHandler
    rw [hAlbum]
  have h2 : getalbumsHandler queryParameters trackFind =
      { statusCode := 200, body := some (.trackItems []) } := by
    unfold getalbumsHandler
    rw [hTracks]
  have h3 : deletealbumHandler deleteId deleteItem = { statusCode := 204 } := by
    unfold deletealbumHandler
    rw [hDelete]
  exact ⟨h1, h2, h3, by rw [h1]; decide, by rw [h2]; decide, by rw [h3]; decide⟩

/-- C2 (witness): with stores that succeed with zero matches, the three
handlers answer 404, 200 with an empty list, and 204. -/
theorem c2_zero_match_is_not_an_error_witness :
    getalbumHandler "a1" (fun _ => .ok []) = { statusCode := 404 } ∧
    getalbumsHandler noQueryParams (fun _ => .ok []) =
      { statusCode := 200, body := some (.trackItems []) } ∧
    deletealbumHandler "a1" (fun _ => .ok 0) = { statusCode := 204 } := by
  have h := c2_zero_match_is_not_an_error "a1" "a1" noQueryParams
    (fun _ => .ok []) (fun _ => .ok []) (fun _ => .ok 0)
    (fun _ => rfl) (fun _ => rfl) (fun _ => rfl)
  exact ⟨h.1, h.2.1, h.2.2.1⟩

/-- C8: the GET /albums and DELETE /albums/:id handlers construct their
store over the track document shape (`models.TrackInfo`) for the `"albums"`
collection, not over the album shape (`models.AlbumInfo`); the GET /albums
response body is therefore a sequence decoded with `TrackInfo`'s mapping. -/
theorem c8_albums_stores_use_trackinfo_shape :
    getalbumsStoreSpec.shape = .trackInfo ∧
    getalbumsStoreSpec.shape ≠ .albumInfo ∧
    getalbumsStoreSpec.collection = "albums" ∧
    deletealbumStoreSpec.shape = .trackInfo ∧
    deletealbumStoreSpec.shape ≠ .albumInfo ∧
    deletealbumStoreSpec.collection = "albums" ∧
    (∀ queryParameters (items : List TrackInfo),
      getalbumsHandler queryParameters (fun _ => .ok items) =
        { statusCode := 200, body := some (.trackItems items) }) := by
  refine ⟨rfl, by decide, rfl, rfl, by decide, rfl, ?_⟩
  intro queryParameters items
  rfl

/-- C5: a disjunction over zero clauses matches no document, and the GET
/albums/:id/tracks handler returns 200 with an empty track sequence
whenever the album is found and its track id list is empty (the handler
short-circuits before querying the track store). -/
theorem c5_empty_or_matches_none (pathId : String)
    (albumFind : Filter → Except Unit (List AlbumInfo))
    (trackFind : Filter → Except Unit (List TrackInfo))
    (album : AlbumInfo) (rest : List AlbumInfo)
    (hFound : albumFind { root := some (.eq "_id" (.str pathId)), limit := 10 } =
      .ok (album :: rest))
    (hEmpty : album.trackIDs = []) :
    getalbumtracksHandler pathId albumFind trackFind =
      { statusCode := 200, body := some (.trackItems []) } ∧
    (∀ doc : Document, matchesQuery (.or []) doc = false) := by
  constructor
  · unfold getalbumtracksHandler
    rw [hFound]
    simp [hEmpty]
  · intro doc
    simp [matchesQuery, matchesAnyQuery]

/-- C5 (witness): a found album with no track ids yields 200 with an empty
track list, and `Or` over zero clauses rejects a sample document. -/
theorem c5_empty_or_matches_none_witness :
    getalbumtracksHandler "a1"
      (fun _ => .ok [{ id := "a1", title := "X", trackIDs := [], stats := { popularity := 1 } }])
      (fun _ => .ok []) =
      { statusCode := 200, body := some (.trackItems []) } ∧
    matchesQuery (.or []) [("_id", .str "a1")] = false := by
  have h := c5_empty_or_matches_none "a1"
    (fun _ => .ok [{ id := "a1", title := "X", trackIDs := [], stats := { popularity := 1 } }])
    (fun _ => .ok [])
    { id := "a1", title := "X", trackIDs := [], stats := { popularity := 1 } } []
    rfl rfl
  exact ⟨h.1, h.2 [("_id", .str "a1")]⟩

/-- The stored album after an update, written out field by field: the id is
untouched (it is not among the `Set` paths) and each remaining field holds
the merged value — the request value when provided, the pre-existing value
otherwise. -/
theorem updateAlbumEffect_eq (album : AlbumInfo) (requestBody : UpdateAlbumRequestBody) :
    updateAlbumEffect album requestBody =
      { id := album.id
        title := if requestBody.title ≠ "" then requestBody.title else album.title
        trackIDs :=
          if requestBody.trackIDs.length > 0 then requestBody.trackIDs else album.trackIDs
        stats :=
          { popularity :=
              if requestBody.popularity ≠ 0 then requestBody.popularity
              else album.stats.popularity } } := by
  unfold updateAlbumEffect applySet updateAlbumOperator mergeAlbumForUpdate
  split <;> split <;> split <;> simp_all [applyAssignment]

/-- C1: for every PUT /albums/:id request that passes validation and whose
target album exists, the update modifies only the fields named in the
request: each field the request omits (empty title, empty track id list,
zero popularity — their JSON zero values) keeps its stored value, and the
id, which is never part of the `Set`, is always unchanged. -/
theorem c1_update_touches_only_requested_fields
    (album : AlbumInfo) (requestBody : UpdateAlbumRequestBody)
    (uuidValid : String → Bool)
    (hValid : ValidateUpdateAlbumRequestBody uuidValid requestBody = none) :
    (requestBody.title = "" →
      (updateAlbumEffect album requestBody).title = album.title) ∧
    (requestBody.trackIDs = [] →
      (updateAlbumEffect album requestBody).trackIDs = album.trackIDs) ∧
    (requestBody.popularity = 0 →
      (updateAlbumEffect album requestBody).stats.popularity = album.stats.popularity) ∧
    (updateAlbumEffect album requestBody).id = album.id := by
  rw [updateAlbumEffect_eq]
  refine ⟨?_, ?_, ?_, rfl⟩
  · intro h; simp [h]
  · intro h; simp [h]
  · intro h; simp [h]

/-- C1 (witness): an all-zero request body against a sample stored album
leaves every field, id included, unchanged. -/
theorem c1_update_touches_only_requested_fields_witness :
    (updateAlbumEffect albumSample updateBodyZero).title = albumSample.title ∧
    (updateAlbumEffect albumSample updateBodyZero).trackIDs = albumSample.trackIDs ∧
    (updateAlbumEffect albumSample updateBodyZero).stats.popularity =
      albumSample.stats.popularity ∧
    (updateAlbumEffect albumSample updateBodyZero).id = albumSample.id := by
  have h := c1_update_touches_only_requested_fields albumSample updateBodyZero
    (fun _ => true) (by decide)
  exact ⟨h.1 rfl, h.2.1 rfl, h.2.2.1 rfl, h.2.2.2⟩

/-- C9: zero-valued fields of a PUT /albums/:id request body are treated as
absent rather than as new values — they keep the stored value — and
consequently the update endpoint can never turn a non-empty stored title
into the empty string, a non-empty stored track list into the empty list,
or a non-zero stored popularity into 0. -/
theorem c9_zero_request_fields_are_absent
    (album : AlbumInfo) (requestBody : UpdateAlbumRequestBody) :
    (requestBody.title = "" →
      (updateAlbumEffect album requestBody).title = album.title) ∧
    (requestBody.trackIDs = [] →
      (updateAlbumEffect album requestBody).trackIDs = album.trackIDs) ∧
    (requestBody.popularity = 0 →
      (updateAlbumEffect album requestBody).stats.popularity = album.stats.popularity) ∧
    (album.title ≠ "" → (updateAlbumEffect album requestBody).title ≠ "") ∧
    (album.trackIDs ≠ [] → (updateAlbumEffect album requestBody).trackIDs ≠ []) ∧
    (album.stats.popularity ≠ 0 →
      (updateAlbumEffect album requestBody).stats.popularity ≠ 0) := by
  rw [updateAlbumEffect_eq]
  refine ⟨fun h => by simp [h], fun h => by simp [h], fun h => by simp [h], ?_, ?_, ?_⟩
  · intro h
    by_cases ht : requestBody.title = "" <;> simp [ht, h]
  · intro h
    by_cases hl : requestBody.trackIDs = []
    · simp [hl, h]
    · have : requestBody.trackIDs.length > 0 := List.length_pos.mpr hl
      simp [this, hl]
  · intro h
    by_cases hp : requestBody.popularity = 0 <;> simp [hp, h]

/-- C9 (witness): the zero body leaves the sample album's fields at their
stored values, and none of them becomes its zero value. -/
theorem c9_zero_request_fields_are_absent_witness :
    (updateAlbumEffect albumSample updateBodyZero).title = albumSample.title ∧
    (updateAlbumEffect albumSample updateBodyZero).trackIDs = albumSample.trackIDs ∧
    (updateAlbumEffect albumSample updateBodyZero).stats.popularity =
      albumSample.stats.popularity ∧
    (updateAlbumEffect albumSample updateBodyZero).title ≠ "" ∧
    (updateAlbumEffect albumSample updateBodyZero).trackIDs ≠ [] ∧
    (updateAlbumEffect albumSample updateBodyZero).stats.popularity ≠ 0 := by
  have h := c9_zero_request_fields_are_absent albumSample updateBodyZero
  exact ⟨h.1 rfl, h.2.1 rfl, h.2.2.1 rfl,
    h.2.2.2.1 (by decide), h.2.2.2.2.1 (by decide), h.2.2.2.2.2 (by decide)⟩

/-- C6: for every POST /albums request that passes validation and the
track-existence checks, the handler assigns the freshly generated UUID as
the created document's id (the request body cannot even carry an id), and
on success returns 200 with a body field-for-field equal to the document
passed to `CreateItem`. -/
theorem c6_create_populates_primary_key
    (requestBody : CreateAlbumRequestBody) (uuidValid trackExists : String → Bool)
    (generatedUUID : String) (create : AlbumInfo → Except Unit Unit)
    (hValid : ValidateCreateAlbumRequestBody uuidValid requestBody = none)
    (hTracks : requestBody.trackIDs.all trackExists = true)
    (hCreate : create (createAlbumDocument generatedUUID requestBody) = .ok ()) :
    createalbumHandler (.ok requestBody) uuidValid trackExists generatedUUID create =
      { statusCode := 200
        body := some (.album (createAlbumDocument generatedUUID requestBody)) } ∧
    (createAlbumDocument generatedUUID requestBody).id = generatedUUID ∧
    (createAlbumDocument generatedUUID requestBody).title = requestBody.title ∧
    (createAlbumDocument generatedUUID requestBody).trackIDs = requestBody.trackIDs ∧
    (createAlbumDocument generatedUUID requestBody).stats.popularity =
      requestBody.popularity := by
  refine ⟨?_, rfl, rfl, rfl, rfl⟩
  simp [createalbumHandler, hValid, hTracks, hCreate]

/-- C6 (witness): a concrete valid request is created under the generated
UUID `"u-1"` and echoed back with status 200. -/
theorem c6_create_populates_primary_key_witness :
    createalbumHandler (.ok { title := "X", trackIDs := [], popularity := 0 })
      (fun _ => true) (fun _ => true) "u-1" (fun _ => .ok ()) =
      { statusCode := 200
        body := some (.album
          (createAlbumDocument "u-1" { title := "X", trackIDs := [], popularity := 0 })) } ∧
    (createAlbumDocument "u-1" { title := "X", trackIDs := [], popularity := 0 }).id =
      "u-1" := by
  have h := c6_create_populates_primary_key
    { title := "X", trackIDs := [], popularity := 0 }
    (fun _ => true) (fun _ => true) "u-1" (fun _ => .ok ())
    (by decide) rfl rfl
  exact ⟨h.1, h.2.1⟩

/-- C7: if establishing the initial database connection fails, `main`
terminates fatally at the connection step and never reaches the serving
state; and the store-facing failure paths of the request handlers are
returned as 500 responses, never as a process abort, making the initial
connection the sole fatal failure path in the core. -/
theorem c7_connection_failure_is_the_sole_fatal_path
    (mongoUsername mongoPassword : String) (mongoHost : Option String)
    (connect : String → Except Unit Unit) (runRouter : Except Unit Unit)
    (hFail : connect (connectionURI mongoUsername mongoPassword
      (mongoHost.getD "127.0.0.1:27017")) = .error ()) :
    mainRun (some mongoUsername) (some mongoPassword) mongoHost connect runRouter =
      .fatalConnect ∧
    mainRun (some mongoUsername) (some mongoPassword) mongoHost connect runRouter ≠
      .serving ∧
    (∀ pathId, getalbumHandler pathId (fun _ => .error ()) = { statusCode := 500 }) ∧
    (∀ queryParameters, getalbumsHandler queryParameters (fun _ => .error ()) =
      { statusCode := 500 }) ∧
    (∀ pathId, deletealbumHandler pathId (fun _ => .error ()) = { statusCode := 500 }) ∧
    (∀ pathId trackFind, getalbumtracksHandler pathId (fun _ => .error ()) trackFind =
      { statusCode := 500 }) := by
  have hmain : mainRun (some mongoUsername) (some mongoPassword) mongoHost connect
      runRouter = .fatalConnect := by
    simp [mainRun, hFail]
  refine ⟨hmain, by rw [hmain]; decide, ?_, ?_, ?_, ?_⟩
  · intro pathId; rfl
  · intro queryParameters; rfl
  · intro pathId; rfl
  · intro pathId trackFind; rfl

/-- C7 (witness): with credentials present and a connection attempt that
fails, `main` aborts at the connection step, and each handler answers a
store error with a 500 response. -/
theorem c7_connection_failure_is_the_sole_fatal_path_witness :
    mainRun (some "root") (some "example") none (fun _ => .error ()) (.ok ()) =
      .fatalConnect ∧
    getalbumHandler "a1" (fun _ => .error ()) = { statusCode := 500 } ∧
    getalbumsHandler noQueryParams (fun _ => .error ()) = { statusCode := 500 } ∧
    deletealbumHandler "a1" (fun _ => .error ()) = { statusCode := 500 } ∧
    getalbumtracksHandler "a1" (fun _ => .error ()) (fun _ => .ok []) =
      { statusCode := 500 } := by
  have h := c7_connection_failure_is_the_sole_fatal_path "root" "example" none
    (fun _ => .error ()) (.ok ()) rfl
  exact ⟨h.1, h.2.2.1 "a1", h.2.2.2.1 noQueryParams, h.2.2.2.2.1 "a1",
    h.2.2.2.2.2 "a1" (fun _ => .ok [])⟩

end Albums
